import Mathlib

/-!
Shallow embedding of the retrieval pipeline of the ai-planet-genai-stack
backend (text chunking, multi-provider embedding generation with retry and
fallback, vector-store access, ingestion and retrieval orchestration), with
theorems checking the natural-language specification against the code.

External effects (provider HTTP calls, the PDF extractor, the langchain
splitter, the Chroma store) are modelled as explicit oracles passed in as
`Except String`-valued functions: `.ok` is a normal return, `.error e`
models a raised exception whose `str(e)` is `e`.  Python dictionaries
returned by the pipeline functions are modelled as Lean structures whose
optional fields are `Option`-valued.
-/

/-- An embedding vector (sequence of floats, modelled over `ℚ`). -/
abbrev Vec := List ℚ

/-- `listStartsWith s pat`: is `pat` a leading segment of `s`?
(Structural recursion so that the kernel can evaluate it.) -/
def listStartsWith : List Char → List Char → Bool
  | _, [] => true
  | [], _ :: _ => false
  | a :: as, b :: bs => a == b && listStartsWith as bs

/-- `listContainsSub s pat`: does `pat` occur in `s` as a contiguous
segment? -/
def listContainsSub : List Char → List Char → Bool
  | [], pat => pat.isEmpty
  | a :: rest, pat => listStartsWith (a :: rest) pat || listContainsSub rest pat

/-- `containsSub s pat`: does `pat` occur in `s` as a substring?
Models the Python `pat in s` test. -/
def containsSub (s pat : String) : Bool := listContainsSub s.data pat.data

/-- Lowercasing of a string, modelling Python `str.lower()` on the ASCII
error messages involved. -/
def toLowerStr (s : String) : String := String.mk (s.data.map Char.toLower)

/-- Leading/trailing-whitespace removal, modelling Python `str.strip()`. -/
def stripStr (s : String) : String :=
  String.mk
    (((s.data.dropWhile Char.isWhitespace).reverse.dropWhile
      Char.isWhitespace).reverse)

/-- Does the string start with the given pattern?  Models Python
`str.startswith`. -/
def startsWithStr (s pat : String) : Bool := listStartsWith s.data pat.data

/-- `anyKeyword kws e`: models `any(k in str(e).lower() for k in kws)`. -/
def anyKeyword (kws : List String) (e : String) : Bool :=
  kws.any (fun k => containsSub (toLowerStr e) k)

/-- Keyword list of `_retry_with_backoff` (embeddings.py:38). -/
def retryQuotaKeywords : List String :=
  ["429", "quota", "rate limit", "resource_exhausted", "too many requests"]

/-- Keyword list of the gemini batch handler (embeddings.py:192). -/
def batchQuotaKeywords : List String :=
  ["429", "quota", "rate limit", "resource_exhausted"]

/-- Keyword list of the cross-provider fallback test (embeddings.py:240). -/
def fallbackQuotaKeywords : List String :=
  ["rate limit", "quota", "429", "exceeded"]

/-- Keyword list of the ingestion pipeline (tasks.py:91). -/
def ingestQuotaKeywords : List String :=
  ["quota", "rate limit", "429", "resource_exhausted"]

/-- Keyword list of the retrieval coordinator (tasks.py:250). -/
def queryQuotaKeywords : List String :=
  ["quota", "rate limit", "429", "exceeded", "resource_exhausted"]

/-- Error message raised when `_retry_with_backoff` exhausts its attempts
(embeddings.py:48). -/
def quotaExhaustedMsg (maxRetries : Nat) : String :=
  "API quota exceeded after " ++ toString maxRetries ++
    " retries. Please try again later."

/-- The attempt loop of `_retry_with_backoff` (embeddings.py:33-52),
structural on the remaining-attempt fuel so that the kernel can evaluate
it.  At entry `fuel = maxRetries - attempt`; the Python test
`attempt < max_retries - 1` is `0 < fuel` after peeling one attempt.
`func i` is the outcome of the `i`-th call of `func` (0-based); `.ok none`
models the `return None` fall-through that happens only when
`maxRetries = 0`. -/
def retry_loop (func : Nat → Except String α) (maxRetries : Nat) :
    Nat → Nat → Except String (Option α)
  | _, 0 => .ok none
  | attempt, fuel + 1 =>
    match func attempt with
    | .ok v => .ok (some v)
    | .error e =>
      if anyKeyword retryQuotaKeywords e then
        if 0 < fuel then retry_loop func maxRetries (attempt + 1) fuel
        else .error (quotaExhaustedMsg maxRetries)
      else .error e

/-- `_retry_with_backoff func maxRetries` (embeddings.py:28-52). -/
def retry_with_backoff (func : Nat → Except String α) (maxRetries : Nat) :
    Except String (Option α) :=
  retry_loop func maxRetries 0 maxRetries

/-- The retry loop never consults `func` outside the attempt window
`[attempt, attempt + fuel)`. -/
theorem retry_loop_congr (f g : Nat → Except String α) (m : Nat) :
    ∀ fuel attempt,
      (∀ i, attempt ≤ i → i < attempt + fuel → f i = g i) →
      retry_loop f m attempt fuel = retry_loop g m attempt fuel := by
  intro fuel
  induction fuel with
  | zero => intro attempt _; rfl
  | succ fu ih =>
    intro attempt h
    simp only [retry_loop]
    rw [h attempt (le_refl _) (by omega)]
    cases hg : g attempt with
    | ok v => rfl
    | error e =>
      dsimp only
      by_cases hq : anyKeyword retryQuotaKeywords e = true
      · by_cases hf : 0 < fu
        · simp only [hq, hf, if_true]
          exact ih (attempt + 1) (fun i h1 h2 => h i (by omega) (by omega))
        · simp [hq, hf]
      · simp [hq]

/-- If every attempt in the window fails with a quota-classified error,
the loop ends in the quota-exhausted error. -/
theorem retry_loop_quota_exhausts (func : Nat → Except String α) (m : Nat) :
    ∀ fuel attempt, 0 < fuel → attempt + fuel = m →
      (∀ i, i < m → ∃ e, func i = Except.error e ∧
        anyKeyword retryQuotaKeywords e = true) →
      retry_loop func m attempt fuel = .error (quotaExhaustedMsg m) := by
  intro fuel
  induction fuel with
  | zero => intro attempt h; omega
  | succ fu ih =>
    intro attempt _ hsum hq
    obtain ⟨e, he, hke⟩ := hq attempt (by omega)
    simp only [retry_loop, he, hke, if_true]
    by_cases hf : 0 < fu
    · rw [if_pos hf]
      exact ih (attempt + 1) hf (by omega) hq
    · rw [if_neg hf]

/--
C8: in `_retry_with_backoff`, a first-attempt failure not classified as
quota/rate-limit (no marker among "429", "quota", "rate limit",
"resource_exhausted", "too many requests" in the lowercased message) is
re-raised immediately with no retry; a run in which every attempt fails
with a quota-classified error performs at most `maxRetries` attempts (the
result never depends on `func` beyond index `maxRetries - 1`) and ends
with the quota-exceeded error.
-/
theorem C8_retry_policy (func : Nat → Except String α)
    (maxRetries : Nat) (hmr : 1 ≤ maxRetries) :
    (∀ e, func 0 = .error e → anyKeyword retryQuotaKeywords e = false →
      retry_with_backoff func maxRetries = .error e) ∧
    ((∀ i, i < maxRetries → ∃ e, func i = .error e ∧
        anyKeyword retryQuotaKeywords e = true) →
      retry_with_backoff func maxRetries =
        .error (quotaExhaustedMsg maxRetries)) ∧
    (∀ g : Nat → Except String α, (∀ i, i < maxRetries → func i = g i) →
      retry_with_backoff func maxRetries = retry_with_backoff g maxRetries) := by
  obtain ⟨k, rfl⟩ : ∃ k, maxRetries = k + 1 := ⟨maxRetries - 1, by omega⟩
  refine ⟨?_, ?_, ?_⟩
  · intro e he hke
    simp only [retry_with_backoff, retry_loop, he, hke, Bool.false_eq_true,
      if_false]
  · intro hq
    exact retry_loop_quota_exhausts func (k + 1) (k + 1) 0 (by omega)
      (by omega) hq
  · intro g hfg
    exact retry_loop_congr func g (k + 1) (k + 1) 0
      (fun i h1 h2 => hfg i (by omega))

/-- Witness for C8 at a concrete oracle: a non-quota failure ("boom") is
re-raised unretried, and an oracle failing with "429" on every attempt
ends in the quota-exceeded message after 5 attempts. -/
theorem C8_retry_policy_witness :
    retry_with_backoff (fun _ => (.error "boom" : Except String Nat)) 5 =
        .error "boom" ∧
    retry_with_backoff (fun _ => (.error "HTTP 429" : Except String Nat)) 5 =
        .error (quotaExhaustedMsg 5) := by
  constructor
  · exact (C8_retry_policy (fun _ => (.error "boom" : Except String Nat)) 5
      (by norm_num)).1 "boom" rfl (by decide)
  · exact (C8_retry_policy (fun _ => (.error "HTTP 429" : Except String Nat)) 5
      (by norm_num)).2.1 (fun i _ => ⟨"HTTP 429", rfl, by decide⟩)

/-! ## Embedding service (embeddings.py) -/

/-- Configuration slice of `settings` read by `EmbeddingService`. -/
structure EmbedConfig where
  openaiKey : String
  geminiKey : String
  batchSize : Nat

/-- Is `self.openai_client` set?  (embeddings.py:25-26: the client is
created exactly when `settings.openai_api_key` is truthy.) -/
def EmbedConfig.openaiClientSet (c : EmbedConfig) : Bool := !(c.openaiKey == "")

/-- The fallback-eligibility test for OpenAI (embeddings.py:245):
`self.openai_client and settings.openai_api_key and not
settings.openai_api_key.startswith('sk-test-')`. -/
def EmbedConfig.openaiValidFallback (c : EmbedConfig) : Bool :=
  c.openaiClientSet && !(c.openaiKey == "") && !(startsWithStr c.openaiKey "sk-test-")

/-- Sequential per-text embedding loop shared by both providers
(embeddings.py:73-97 for OpenAI, 141-173 per Gemini batch): texts empty
after stripping are skipped, each remaining text is sent to the per-text
api call, any exception aborts the whole loop, and the vectors are
collected in input order. -/
def embedLoop (api : String → Except String Vec) :
    List String → Except String (List Vec)
  | [] => .ok []
  | t :: ts =>
    if stripStr t == "" then embedLoop api ts
    else
      match api t with
      | .error e => .error e
      | .ok v =>
        match embedLoop api ts with
        | .error e => .error e
        | .ok vs => .ok (v :: vs)

/-- `get_openai_embeddings` (embeddings.py:54-112).  `api t` models one
`openai.embeddings.create` request for text `t`. -/
def get_openai_embeddings (cfg : EmbedConfig)
    (api : String → Except String Vec) (texts : List String) :
    Except String (List Vec) :=
  if cfg.openaiClientSet then embedLoop api texts
  else .error "OpenAI API key not configured"

/-- Per-text Gemini call: one `genai.embed_content` request wrapped in
`_retry_with_backoff(make_request, max_retries=5, base_delay=2)`
(embeddings.py:148-156).  `req t i` is the outcome of attempt `i` for
text `t`. -/
def geminiEmbedOne (req : String → Nat → Except String Vec) (t : String) :
    Except String Vec :=
  match retry_with_backoff (req t) 5 with
  | .ok (some v) => .ok v
  | .ok none => .error "TypeError: NoneType object is not subscriptable"
  | .error e => .error e

/-- Fuel-driven splitting into consecutive batches of `n`: with
`fuel ≥ xs.length` and `n ≥ 1` the fuel never runs out, so this is the
grouping `texts[i:i+batch_size]` for `i in range(0, len, batch_size)`. -/
def chunksOfGo (n : Nat) : Nat → List α → List (List α)
  | _, [] => []
  | 0, _ :: _ => []
  | fuel + 1, x :: rest =>
    ((x :: rest).take n) :: chunksOfGo n fuel ((x :: rest).drop n)

/-- Grouping into consecutive batches of `n`, modelling
`texts[i:i+batch_size]` for `i in range(0, len(texts), batch_size)`. -/
def chunksOf (n : Nat) (xs : List α) : List (List α) :=
  chunksOfGo n xs.length xs

/-- Error raised when a Gemini batch fails with a quota-classified error
(embeddings.py:194). -/
def geminiBatchMsg (processed total : Nat) : String :=
  "Embedding quota exceeded. Please try again later or reduce document size. Processed "
    ++ toString processed ++ "/" ++ toString total ++ " chunks."

/-- The Gemini batch loop (embeddings.py:176-196): batches run
sequentially, vectors accumulate across batches, a quota-classified batch
failure is rewrapped into `geminiBatchMsg`, any other failure propagates
as is. -/
def geminiBatches (api : String → Except String Vec) (total : Nat)
    (acc : List Vec) : List (List String) → Except String (List Vec)
  | [] => .ok acc
  | b :: bs =>
    match embedLoop api b with
    | .ok vs => geminiBatches api total (acc ++ vs) bs
    | .error e =>
      if anyKeyword batchQuotaKeywords e then
        .error (geminiBatchMsg acc.length total)
      else .error e

/-- `get_gemini_embeddings` (embeddings.py:114-207).  A zero batch size
models the `range(0, len, 0)` `ValueError` of the Python source. -/
def get_gemini_embeddings (cfg : EmbedConfig)
    (req : String → Nat → Except String Vec) (texts : List String) :
    Except String (List Vec) :=
  if cfg.geminiKey == "" then .error "Gemini API key not configured"
  else if cfg.batchSize == 0 then
    .error "ValueError: range arg 3 must not be zero"
  else
    geminiBatches (geminiEmbedOne req) texts.length []
      (chunksOf cfg.batchSize texts)

/-- The environment of one `EmbeddingService` instance: its configuration
and the two provider oracles. -/
structure EmbedEnv where
  cfg : EmbedConfig
  openaiApi : String → Except String Vec
  geminiReq : String → Nat → Except String Vec

/-- Error raised when Gemini quota is exhausted and no valid OpenAI
fallback exists, or the fallback itself failed (embeddings.py:255). -/
def geminiExhaustMsg (e : String) : String :=
  "Gemini quota exceeded and no valid fallback available. Please wait for quota reset or configure OpenAI API key. Original error: "
    ++ e

/-- Error raised when OpenAI quota is exhausted and the Gemini fallback
also failed (embeddings.py:264). -/
def bothFailedMsg (e fe : String) : String :=
  "Both OpenAI and Gemini embedding providers failed. OpenAI error: " ++ e
    ++ ", Gemini error: " ++ fe

/-- Error raised when OpenAI quota is exhausted and no Gemini key is
configured (embeddings.py:266). -/
def openaiNoGeminiMsg (e : String) : String :=
  "OpenAI rate limit exceeded and no Gemini API key configured. Original error: "
    ++ e

/-- The try-block of `get_embeddings` (embeddings.py:227-235): dispatch
on the lowercased provider name, an unsupported name raising a
`ValueError`. -/
def primaryEmbed (env : EmbedEnv) (texts : List String)
    (provider : String) : Except String (List Vec) :=
  if toLowerStr provider == "openai" then
    get_openai_embeddings env.cfg env.openaiApi texts
  else if toLowerStr provider == "gemini" then
    get_gemini_embeddings env.cfg env.geminiReq texts
  else .error ("Unsupported embedding provider: " ++ provider)

/-- `get_embeddings` (embeddings.py:209-269): run the primary provider,
then on a quota-classified failure try the other provider on the same
texts, surfacing provider-naming errors when that is impossible or also
fails. -/
def get_embeddings (env : EmbedEnv) (texts : List String)
    (provider : String) : Except String (List Vec) :=
  let p := toLowerStr provider
  match primaryEmbed env texts provider with
  | .ok vs => .ok vs
  | .error e =>
    if anyKeyword fallbackQuotaKeywords e then
      if p == "gemini" then
        if env.cfg.openaiValidFallback then
          match get_openai_embeddings env.cfg env.openaiApi texts with
          | .ok vs => .ok vs
          | .error _ => .error (geminiExhaustMsg e)
        else .error (geminiExhaustMsg e)
      else if p == "openai" then
        if !(env.cfg.geminiKey == "") then
          match get_gemini_embeddings env.cfg env.geminiReq texts with
          | .ok vs => .ok vs
          | .error fe => .error (bothFailedMsg e fe)
        else .error (openaiNoGeminiMsg e)
      else .error e
    else .error e

/-- `get_query_embedding` (embeddings.py:271-289): embed the single query
text and return the first vector, or `[]` when the list is empty. -/
def get_query_embedding (env : EmbedEnv) (query provider : String) :
    Except String Vec :=
  match get_embeddings env [query] provider with
  | .error e => .error e
  | .ok vs => .ok (vs.headD [])

/-- Result of `check_provider_availability`. -/
structure AvailabilityStatus where
  available : Bool
  reason : Option String
deriving DecidableEq

/-- `check_provider_availability` (embeddings.py:291-332): a pure
configuration inspection, no network call. -/
def check_provider_availability (cfg : EmbedConfig) (provider : String) :
    AvailabilityStatus :=
  let p := toLowerStr provider
  if p == "gemini" then
    if cfg.geminiKey == "" then
      ⟨false, some "Gemini API key not configured"⟩
    else ⟨true, none⟩
  else if p == "openai" then
    if !cfg.openaiClientSet || cfg.openaiKey == ""
        || startsWithStr cfg.openaiKey "sk-test-" then
      ⟨false, some "OpenAI API key not configured or invalid"⟩
    else ⟨true, none⟩
  else ⟨false, some ("Unsupported provider: " ++ provider)⟩

/-- The input texts that survive the `if not text.strip(): continue`
filter of both provider loops. -/
def nonEmptyTexts (texts : List String) : List String :=
  texts.filter (fun t => !(stripStr t == ""))

/-- A successful `embedLoop` run returns exactly one vector per input text
that is non-empty after stripping, in input order, each vector being the
api result on its text. -/
theorem embedLoop_ok (api : String → Except String Vec)
    (texts : List String) : ∀ vs, embedLoop api texts = .ok vs →
    List.Forall₂ (fun t v => api t = .ok v) (nonEmptyTexts texts) vs := by
  induction texts with
  | nil =>
    intro vs h
    simp only [embedLoop] at h
    cases h
    simp [nonEmptyTexts]
  | cons t ts ih =>
    intro vs h
    simp only [embedLoop] at h
    by_cases hs : (stripStr t == "") = true
    · rw [if_pos hs] at h
      have hf := ih vs h
      simpa [nonEmptyTexts, List.filter_cons, hs] using hf
    · rw [if_neg hs] at h
      cases hapi : api t with
      | error e => rw [hapi] at h; simp at h
      | ok v =>
        rw [hapi] at h
        cases hrec : embedLoop api ts with
        | error e => rw [hrec] at h; simp at h
        | ok vs' =>
          rw [hrec] at h
          cases h
          have hf := ih vs' hrec
          have hcons : nonEmptyTexts (t :: ts) = t :: nonEmptyTexts ts := by
            simp [nonEmptyTexts, List.filter_cons, hs]
          rw [hcons]
          exact List.Forall₂.cons hapi hf

/-- With enough fuel, concatenating the batches gives back the input. -/
theorem chunksOfGo_flatten (n : Nat) (hn : n ≠ 0) :
    ∀ (fuel : Nat) (xs : List α), xs.length ≤ fuel →
      (chunksOfGo n fuel xs).flatten = xs := by
  intro fuel
  induction fuel with
  | zero =>
    intro xs h
    cases xs with
    | nil => rfl
    | cons a as => simp at h
  | succ fu ih =>
    intro xs h
    cases xs with
    | nil => rfl
    | cons a as =>
      simp only [chunksOfGo, List.flatten_cons]
      rw [ih ((a :: as).drop n) ?_]
      · exact List.take_append_drop n (a :: as)
      · have hn1 : 1 ≤ n := Nat.one_le_iff_ne_zero.mpr hn
        simp only [List.length_drop, List.length_cons] at h ⊢
        omega

/-- Batching by `n ≠ 0` partitions the list: concatenating the batches
gives back the input. -/
theorem chunksOf_flatten (n : Nat) (hn : n ≠ 0) (xs : List α) :
    (chunksOf n xs).flatten = xs :=
  chunksOfGo_flatten n hn xs.length xs (le_refl _)

/-- A successful `geminiBatches` run appends, to the accumulator, one
vector per non-empty text of the concatenated batches, in order. -/
theorem geminiBatches_ok (api : String → Except String Vec) (total : Nat)
    (bs : List (List String)) : ∀ acc vs,
    geminiBatches api total acc bs = .ok vs →
    ∃ rest, vs = acc ++ rest ∧
      List.Forall₂ (fun t v => api t = .ok v) (nonEmptyTexts bs.flatten) rest := by
  induction bs with
  | nil =>
    intro acc vs h
    simp only [geminiBatches] at h
    cases h
    exact ⟨[], by simp, by simp [nonEmptyTexts]⟩
  | cons b bs ih =>
    intro acc vs h
    cases hb : embedLoop api b with
    | error e =>
      simp only [geminiBatches, hb] at h
      split at h <;> simp at h
    | ok ws =>
      simp only [geminiBatches, hb] at h
      obtain ⟨rest, hvs, hf⟩ := ih (acc ++ ws) vs h
      refine ⟨ws ++ rest, by simp [hvs], ?_⟩
      have h1 := embedLoop_ok api b ws hb
      have happ : nonEmptyTexts ((b :: bs).flatten) =
          nonEmptyTexts b ++ nonEmptyTexts bs.flatten := by
        simp [nonEmptyTexts, List.flatten_cons, List.filter_append]
      rw [happ]
      exact List.rel_append h1 hf

/-- A successful `get_openai_embeddings` call satisfies the per-text
correspondence. -/
theorem get_openai_embeddings_ok (cfg : EmbedConfig)
    (api : String → Except String Vec) (texts : List String)
    (vs : List Vec) (h : get_openai_embeddings cfg api texts = .ok vs) :
    List.Forall₂ (fun t v => api t = .ok v) (nonEmptyTexts texts) vs := by
  unfold get_openai_embeddings at h
  by_cases h1 : cfg.openaiClientSet = true
  · rw [if_pos h1] at h
    exact embedLoop_ok api texts vs h
  · rw [if_neg h1] at h
    simp at h

/-- A successful `get_gemini_embeddings` call satisfies the per-text
correspondence (the batch structure is transparent to the result). -/
theorem get_gemini_embeddings_ok (cfg : EmbedConfig)
    (req : String → Nat → Except String Vec) (texts : List String)
    (vs : List Vec) (h : get_gemini_embeddings cfg req texts = .ok vs) :
    List.Forall₂ (fun t v => geminiEmbedOne req t = .ok v)
      (nonEmptyTexts texts) vs := by
  unfold get_gemini_embeddings at h
  by_cases h1 : (cfg.geminiKey == "") = true
  · rw [if_pos h1] at h; simp at h
  · rw [if_neg h1] at h
    by_cases h2 : (cfg.batchSize == 0) = true
    · rw [if_pos h2] at h; simp at h
    · rw [if_neg h2] at h
      obtain ⟨rest, hvs, hf⟩ := geminiBatches_ok _ _ _ _ _ h
      rw [chunksOf_flatten cfg.batchSize (by simpa using h2) texts] at hf
      simpa [hvs] using hf

/-- A successful primary dispatch comes from one of the two providers. -/
theorem primaryEmbed_ok (env : EmbedEnv) (texts : List String)
    (provider : String) (vs : List Vec)
    (h : primaryEmbed env texts provider = .ok vs) :
    List.Forall₂ (fun t v => env.openaiApi t = .ok v) (nonEmptyTexts texts) vs ∨
    List.Forall₂ (fun t v => geminiEmbedOne env.geminiReq t = .ok v)
      (nonEmptyTexts texts) vs := by
  unfold primaryEmbed at h
  by_cases h1 : (toLowerStr provider == "openai") = true
  · rw [if_pos h1] at h
    exact .inl (get_openai_embeddings_ok _ _ _ _ h)
  · rw [if_neg h1] at h
    by_cases h2 : (toLowerStr provider == "gemini") = true
    · rw [if_pos h2] at h
      exact .inr (get_gemini_embeddings_ok _ _ _ _ h)
    · rw [if_neg h2] at h; simp at h

/-- Any successful `get_embeddings` call (primary or fallback) is one
provider's per-text run over the same texts. -/
theorem get_embeddings_ok (env : EmbedEnv) (texts : List String)
    (provider : String) (vs : List Vec)
    (h : get_embeddings env texts provider = .ok vs) :
    List.Forall₂ (fun t v => env.openaiApi t = .ok v) (nonEmptyTexts texts) vs ∨
    List.Forall₂ (fun t v => geminiEmbedOne env.geminiReq t = .ok v)
      (nonEmptyTexts texts) vs := by
  unfold get_embeddings at h
  cases hpr : primaryEmbed env texts provider with
  | ok ws =>
    rw [hpr] at h
    cases h
    exact primaryEmbed_ok env texts provider _ hpr
  | error e =>
    rw [hpr] at h
    simp only at h
    by_cases hq : anyKeyword fallbackQuotaKeywords e = true
    · rw [if_pos hq] at h
      by_cases hg : (toLowerStr provider == "gemini") = true
      · rw [if_pos hg] at h
        by_cases hv : env.cfg.openaiValidFallback = true
        · rw [if_pos hv] at h
          cases hoa : get_openai_embeddings env.cfg env.openaiApi texts with
          | ok ws =>
            rw [hoa] at h
            cases h
            exact .inl (get_openai_embeddings_ok _ _ _ _ hoa)
          | error fe => rw [hoa] at h; simp at h
        · rw [if_neg hv] at h; simp at h
      · rw [if_neg hg] at h
        by_cases ho : (toLowerStr provider == "openai") = true
        · rw [if_pos ho] at h
          by_cases hgk : (!(env.cfg.geminiKey == "")) = true
          · rw [if_pos hgk] at h
            cases hge : get_gemini_embeddings env.cfg env.geminiReq texts with
            | ok ws =>
              rw [hge] at h
              cases h
              exact .inr (get_gemini_embeddings_ok _ _ _ _ hge)
            | error fe => rw [hge] at h; simp at h
          · rw [if_neg hgk] at h; simp at h
        · rw [if_neg ho] at h; simp at h
    · rw [if_neg hq] at h; simp at h

/--
C3: whenever `get_openai_embeddings`, `get_gemini_embeddings` or
`get_embeddings` returns without raising, the number of returned vectors
equals the number of input texts that are non-empty after stripping, and
the i-th vector is the provider's result on the i-th non-empty text
(order preserved).
-/
theorem C3_count_invariant :
    (∀ (cfg : EmbedConfig) (api : String → Except String Vec)
        (texts : List String) (vs : List Vec),
        get_openai_embeddings cfg api texts = .ok vs →
        vs.length = (nonEmptyTexts texts).length ∧
          List.Forall₂ (fun t v => api t = .ok v) (nonEmptyTexts texts) vs) ∧
    (∀ (cfg : EmbedConfig) (req : String → Nat → Except String Vec)
        (texts : List String) (vs : List Vec),
        get_gemini_embeddings cfg req texts = .ok vs →
        vs.length = (nonEmptyTexts texts).length ∧
          List.Forall₂ (fun t v => geminiEmbedOne req t = .ok v)
            (nonEmptyTexts texts) vs) ∧
    (∀ (env : EmbedEnv) (texts : List String) (provider : String)
        (vs : List Vec),
        get_embeddings env texts provider = .ok vs →
        vs.length = (nonEmptyTexts texts).length ∧
          ∃ f, (f = env.openaiApi ∨ f = geminiEmbedOne env.geminiReq) ∧
            List.Forall₂ (fun t v => f t = .ok v) (nonEmptyTexts texts) vs) := by
  refine ⟨?_, ?_, ?_⟩
  · intro cfg api texts vs h
    have hf := get_openai_embeddings_ok cfg api texts vs h
    exact ⟨hf.length_eq.symm, hf⟩
  · intro cfg req texts vs h
    have hf := get_gemini_embeddings_ok cfg req texts vs h
    exact ⟨hf.length_eq.symm, hf⟩
  · intro env texts provider vs h
    cases get_embeddings_ok env texts provider vs h with
    | inl hf => exact ⟨hf.length_eq.symm, env.openaiApi, .inl rfl, hf⟩
    | inr hf =>
      exact ⟨hf.length_eq.symm, geminiEmbedOne env.geminiReq, .inr rfl, hf⟩

/-- A constant per-text api call used by concrete test environments. -/
def apiConst : String → Except String Vec := fun _ => .ok [(1 : ℚ)]

/-- Witness for C3: a concrete OpenAI run over `["a", " ", "b"]` returns
one vector per non-whitespace text, in order. -/
theorem C3_count_invariant_witness :
    ([[(1 : ℚ)], [(1 : ℚ)]] : List Vec).length =
        (nonEmptyTexts ["a", " ", "b"]).length ∧
      List.Forall₂ (fun t v => apiConst t = .ok v)
        (nonEmptyTexts ["a", " ", "b"]) [[(1 : ℚ)], [(1 : ℚ)]] :=
  C3_count_invariant.1 ⟨"sk-live", "", 2⟩ apiConst ["a", " ", "b"]
    [[(1 : ℚ)], [(1 : ℚ)]] rfl

/-- The primary dispatch on provider "gemini" is the Gemini call. -/
theorem primaryEmbed_gemini (env : EmbedEnv) (texts : List String) :
    primaryEmbed env texts "gemini" =
      get_gemini_embeddings env.cfg env.geminiReq texts := rfl

/-- The primary dispatch on provider "openai" is the OpenAI call. -/
theorem primaryEmbed_openai (env : EmbedEnv) (texts : List String) :
    primaryEmbed env texts "openai" =
      get_openai_embeddings env.cfg env.openaiApi texts := rfl

/--
C4: when the primary provider fails with a quota/rate-limit-classified
error, `get_embeddings` falls back: with a configured, valid secondary it
returns the secondary provider's vectors for the entire input list as a
normal success; with no valid secondary, or a failing secondary, it raises
the source's provider-naming error message, which carries the exhausted
provider's name and the original error text (`geminiExhaustMsg e`,
`openaiNoGeminiMsg e`, `bothFailedMsg e fe`).
-/
theorem C4_provider_fallback (env : EmbedEnv) (texts : List String)
    (e : String) (hq : anyKeyword fallbackQuotaKeywords e = true) :
    (get_gemini_embeddings env.cfg env.geminiReq texts = .error e →
      (∀ vs, env.cfg.openaiValidFallback = true →
        get_openai_embeddings env.cfg env.openaiApi texts = .ok vs →
        get_embeddings env texts "gemini" = .ok vs) ∧
      (env.cfg.openaiValidFallback = false →
        get_embeddings env texts "gemini" = .error (geminiExhaustMsg e)) ∧
      (∀ fe, env.cfg.openaiValidFallback = true →
        get_openai_embeddings env.cfg env.openaiApi texts = .error fe →
        get_embeddings env texts "gemini" = .error (geminiExhaustMsg e))) ∧
    (get_openai_embeddings env.cfg env.openaiApi texts = .error e →
      (∀ vs, (env.cfg.geminiKey == "") = false →
        get_gemini_embeddings env.cfg env.geminiReq texts = .ok vs →
        get_embeddings env texts "openai" = .ok vs) ∧
      ((env.cfg.geminiKey == "") = true →
        get_embeddings env texts "openai" = .error (openaiNoGeminiMsg e)) ∧
      (∀ fe, (env.cfg.geminiKey == "") = false →
        get_gemini_embeddings env.cfg env.geminiReq texts = .error fe →
        get_embeddings env texts "openai" = .error (bothFailedMsg e fe))) := by
  constructor
  · intro hprim
    have hpe : primaryEmbed env texts "gemini" = .error e := by
      rw [primaryEmbed_gemini]; exact hprim
    have hgg : (toLowerStr "gemini" == "gemini") = true := rfl
    refine ⟨?_, ?_, ?_⟩
    · intro vs hv hoa
      simp only [get_embeddings, hpe, hq, if_true, hgg, hv, hoa]
    · intro hv
      simp only [get_embeddings, hpe, hq, if_true, hgg, hv,
        Bool.false_eq_true, if_false]
    · intro fe hv hoa
      simp only [get_embeddings, hpe, hq, if_true, hgg, hv, hoa]
  · intro hprim
    have hpe : primaryEmbed env texts "openai" = .error e := by
      rw [primaryEmbed_openai]; exact hprim
    have hog : (toLowerStr "openai" == "gemini") = false := rfl
    have hoo : (toLowerStr "openai" == "openai") = true := rfl
    refine ⟨?_, ?_, ?_⟩
    · intro vs hk hge
      simp only [get_embeddings, hpe, hq, if_true, hog, hoo, hk,
        Bool.false_eq_true, if_false, Bool.not_false, hge]
    · intro hk
      simp only [get_embeddings, hpe, hq, if_true, hog, hoo, hk,
        Bool.false_eq_true, if_false, Bool.not_true]
    · intro fe hk hge
      simp only [get_embeddings, hpe, hq, if_true, hog, hoo, hk,
        Bool.false_eq_true, if_false, Bool.not_false, hge]

/-- Concrete environment for the C4 witness: Gemini always answers with a
quota error, OpenAI is validly configured and healthy. -/
def envC4 : EmbedEnv :=
  ⟨⟨"sk-live", "gk", 1⟩, fun _ => .ok [(2 : ℚ)], fun _ _ => .error "quota"⟩

/-- Witness for C4: with Gemini quota-exhausted on every attempt and a
healthy OpenAI fallback, `get_embeddings` succeeds with the OpenAI
vectors. -/
theorem C4_provider_fallback_witness :
    get_embeddings envC4 ["a"] "gemini" = .ok [[(2 : ℚ)]] :=
  ((C4_provider_fallback envC4 ["a"] (geminiBatchMsg 0 1) (by decide)).1
    rfl).1 [[(2 : ℚ)]] rfl rfl

/-! ## Chunker (chunking.py) -/

/-- One chunk object of `chunk_text` (chunking.py:48-58), restricted to
the fields downstream code consumes. -/
structure Chunk where
  chunk_id : Nat
  text : String
deriving DecidableEq

/-- `chunk_text` (chunking.py:7-65).  The langchain
`RecursiveCharacterTextSplitter.split_text` call is an external oracle
`splitOutcome`, whose `.error` case models any exception inside the try
block.  Empty or whitespace-only input returns `[]` before the splitter
runs; any internal error is caught and surfaced as `[]`; pieces that are
empty after stripping are dropped while keeping their enumeration index. -/
def chunk_text (splitOutcome : Except String (List String))
    (text : String) : List Chunk :=
  if stripStr text == "" then []
  else
    match splitOutcome with
    | .error _ => []
    | .ok pieces =>
      (pieces.enum.filter (fun p => !(stripStr p.2 == ""))).map
        (fun p => ⟨p.1, p.2⟩)

/-- `chunk_text_simple` (chunking.py:67-84): the chunk texts only. -/
def chunk_text_simple (splitOutcome : Except String (List String))
    (text : String) : List String :=
  (chunk_text splitOutcome text).map Chunk.text

/--
C7: `chunk_text` (and `chunk_text_simple`) is total with respect to its
caller: empty or whitespace-only input yields `[]`, and any run whose
internal splitter step raises is caught and yields `[]`; being plain Lean
functions into `List`, they never raise.
-/
theorem C7_chunking_total :
    (∀ (so : Except String (List String)) (text : String),
      (stripStr text == "") = true →
        chunk_text so text = [] ∧ chunk_text_simple so text = []) ∧
    (∀ (text e : String),
        chunk_text (.error e) text = [] ∧
          chunk_text_simple (.error e) text = []) := by
  constructor
  · intro so text h
    constructor <;> simp [chunk_text, chunk_text_simple, h]
  · intro text e
    by_cases h : (stripStr text == "") = true <;>
      constructor <;> simp [chunk_text, chunk_text_simple, h]

/-- Witness for C7: a concrete failing splitter yields `[]`, and concrete
whitespace-only input yields `[]`. -/
theorem C7_chunking_total_witness :
    chunk_text (.error "split blew up") "abc" = [] ∧
      chunk_text_simple (Except.ok ["a"]) "   " = [] :=
  ⟨(C7_chunking_total.2 "abc" "split blew up").1,
    (C7_chunking_total.1 (Except.ok ["a"]) "   " rfl).2⟩

/-! ## Ingestion pipeline (tasks.py: process_document_upload) -/

/-- The metadata attached to each stored chunk record (tasks.py:109-121);
the wall-clock `upload_timestamp` field is omitted from the model. -/
structure RecordMeta where
  chunk_index : Nat
  workspace_id : String
  file_name : String
  chunk_size : Nat
  embedding_provider : String
  has_embeddings : Bool
  processing_mode : String
deriving DecidableEq

/-- The dictionary returned by `process_document_upload`, restricted to
the fields the spec talks about; a field absent from the Python dict on a
given path is `none`.  `stored` is the metadata list handed to the
successful `add_documents` call (empty when storage is not reached or the
store call raises). -/
structure IngestResult where
  success : Bool
  chunks_processed : Option Nat
  embeddings_generated : Option Nat
  storage_mode : Option String
  warning : Option String
  error : Option String
  stored : List RecordMeta
deriving DecidableEq

/-- The failure dictionary of tasks.py:163-167. -/
def ingestFail (e : String) : IngestResult :=
  ⟨false, none, none, none, none, some e, []⟩

/-- Python truthiness of the `embeddings` value at tasks.py:142-143:
`if embeddings` is false for both `None` and `[]`. -/
def embTruthy : Option (List Vec) → Bool
  | some (_ :: _) => true
  | _ => false

/-- The quota warning of tasks.py:93. -/
def ingestQuotaWarning : String :=
  "Embeddings skipped due to API quota limits. Document stored for text search only."

/-- The except-handler of the embedding stage (tasks.py:89-100): classify
the error, set a warning, and continue with no embeddings — the pipeline
is not aborted here for any error class. -/
def handleEmbedError (e : String) : Option (List Vec) × Bool × Option String :=
  if anyKeyword ingestQuotaKeywords e then (none, true, some ingestQuotaWarning)
  else (none, true, some ("Embeddings failed: " ++ e))

/-- The count-mismatch message of tasks.py:85. -/
def mismatchMsg (ne nc : Nat) : String :=
  "Embedding count mismatch: " ++ toString ne ++ " embeddings for "
    ++ toString nc ++ " chunks"

/-- Step 4 of `process_document_upload` (tasks.py:66-100): availability
check, embedding call, count-mismatch check (raised inside the same try
block), catch-all handler.  Returns `(embeddings, embedding_failed,
warning_message)`. -/
def embedStage (env : EmbedEnv) (provider : String) (chunks : List String) :
    Option (List Vec) × Bool × Option String :=
  let avail := check_provider_availability env.cfg provider
  if !avail.available then
    (none, true,
      some ("Embedding provider not configured: " ++ avail.reason.getD ""))
  else
    match get_embeddings env chunks provider with
    | .ok embs =>
      if embs.length ≠ chunks.length then
        handleEmbedError (mismatchMsg embs.length chunks.length)
      else (some embs, false, none)
    | .error e => handleEmbedError e

/-- Environment of one ingestion run: the embedding environment plus the
extraction, splitter and store oracles, and the configured chunk cap
(`settings.max_chunks_per_document`). -/
structure IngestEnv where
  embedEnv : EmbedEnv
  extractOutcome : Except String String
  splitOutcome : Except String (List String)
  storeOutcome : Except String Bool
  maxChunks : Nat

/-- Metadata construction of tasks.py:109-121. -/
def mkMetadatas (workspaceId fileName provider : String)
    (embedding_failed : Bool) (chunks : List String) : List RecordMeta :=
  chunks.enum.map (fun p =>
    ⟨p.1, workspaceId, fileName, p.2.length, provider, !embedding_failed,
      if embedding_failed then "text_only" else "with_embeddings"⟩)

/-- Steps 5-6 of `process_document_upload` (tasks.py:102-159): store the
records and build the success dictionary; a store exception falls to the
outer handler. -/
def storeStage (env : IngestEnv) (workspaceId fileName provider : String)
    (chunks : List String) (st : Option (List Vec) × Bool × Option String) :
    IngestResult :=
  match env.storeOutcome with
  | .error e => ingestFail e
  | .ok ok =>
    if !ok then ingestFail "Failed to store documents in ChromaDB"
    else
      { success := true
        chunks_processed := some chunks.length
        embeddings_generated :=
          some (if embTruthy st.1 then (st.1.getD []).length else 0)
        storage_mode :=
          some (if embTruthy st.1 then "with_embeddings" else "text_only")
        warning := st.2.2
        error := none
        stored := mkMetadatas workspaceId fileName provider st.2.1 chunks }

/-- `process_document_upload` (tasks.py:13-167), the PDF bytes abstracted
behind the extraction oracle (`.error e` models a failed extraction whose
message is `e`). -/
def process_document_upload (env : IngestEnv)
    (fileName workspaceId provider : String) : IngestResult :=
  match env.extractOutcome with
  | .error e => ingestFail ("PDF extraction failed: " ++ e)
  | .ok text =>
    if stripStr text == "" then ingestFail "No text content found in PDF"
    else
      let chunks := chunk_text_simple env.splitOutcome text
      if chunks.isEmpty then ingestFail "No valid chunks created from text"
      else
        let capped := chunks.take env.maxChunks
        storeStage env workspaceId fileName provider capped
          (embedStage env.embedEnv provider capped)

/-- When extraction succeeds, the text is non-blank and chunking is
non-empty, the pipeline reduces to the embed-and-store stages over the
capped chunk list. -/
theorem process_document_upload_eq (env : IngestEnv)
    (fileName workspaceId provider text : String)
    (hex : env.extractOutcome = .ok text)
    (htext : (stripStr text == "") = false)
    (hchunks : (chunk_text_simple env.splitOutcome text).isEmpty = false) :
    process_document_upload env fileName workspaceId provider =
      storeStage env workspaceId fileName provider
        ((chunk_text_simple env.splitOutcome text).take env.maxChunks)
        (embedStage env.embedEnv provider
          ((chunk_text_simple env.splitOutcome text).take env.maxChunks)) := by
  unfold process_document_upload
  rw [hex]
  simp only [htext, Bool.false_eq_true, if_false, hchunks]

/-- The embed stage on an available provider whose `get_embeddings` call
raises reduces to the catch-all handler. -/
theorem embedStage_error (env : EmbedEnv) (provider : String)
    (chunks : List String) (e : String)
    (havail : (check_provider_availability env.cfg provider).available = true)
    (hemb : get_embeddings env chunks provider = .error e) :
    embedStage env provider chunks = handleEmbedError e := by
  unfold embedStage
  simp only [havail, Bool.not_true, Bool.false_eq_true, if_false, hemb]

/-- The embed stage on an unavailable provider: no embedding call, warning
set, embeddings absent. -/
theorem embedStage_unavailable (env : EmbedEnv) (provider : String)
    (chunks : List String)
    (havail : (check_provider_availability env.cfg provider).available = false) :
    embedStage env provider chunks =
      (none, true, some ("Embedding provider not configured: "
        ++ (check_provider_availability env.cfg provider).reason.getD "")) := by
  unfold embedStage
  simp only [havail, Bool.not_false, if_true]

/-- The store stage when the store call succeeds with `embeddings = None`:
a text-only success dictionary. -/
theorem storeStage_ok_none (env : IngestEnv)
    (workspaceId fileName provider : String) (chunks : List String)
    (failed : Bool) (w : Option String)
    (hstore : env.storeOutcome = .ok true) :
    storeStage env workspaceId fileName provider chunks (none, failed, w) =
      { success := true
        chunks_processed := some chunks.length
        embeddings_generated := some 0
        storage_mode := some "text_only"
        warning := w
        error := none
        stored := mkMetadatas workspaceId fileName provider failed chunks } := by
  unfold storeStage
  rw [hstore]
  simp [embTruthy]

/-- Every record built with `embedding_failed = true` is flagged
text-only. -/
theorem mkMetadatas_failed (workspaceId fileName provider : String)
    (chunks : List String) :
    ∀ m ∈ mkMetadatas workspaceId fileName provider true chunks,
      m.has_embeddings = false ∧ m.processing_mode = "text_only" := by
  intro m hm
  unfold mkMetadatas at hm
  rw [List.mem_map] at hm
  obtain ⟨p, _, rfl⟩ := hm
  exact ⟨rfl, rfl⟩

/-- The record count equals the chunk count. -/
theorem mkMetadatas_length (workspaceId fileName provider : String)
    (failed : Bool) (chunks : List String) :
    (mkMetadatas workspaceId fileName provider failed chunks).length =
      chunks.length := by
  unfold mkMetadatas
  rw [List.length_map, List.enum_length]

/-- Concrete run refuting C1: the provider is available, `get_embeddings`
raises the non-quota error "boom", the store succeeds. -/
def envC1 : IngestEnv :=
  ⟨⟨⟨"", "gk", 1⟩, fun _ => .error "unused", fun _ _ => .error "boom"⟩,
    .ok "hello", .ok ["hello"], .ok true, 15⟩

/--
Counterexample to C1 as stated: in this run the embedding stage fails with
"boom", which carries no quota/rate-limit marker, yet
`process_document_upload` does not abort — it returns `success = true`
with `error = none` and stores the records in text-only mode.  (The
count-mismatch raise of tasks.py:85 sits inside the same try block and is
swallowed by the same handler.)
-/
theorem C1_counterexample :
    get_embeddings envC1.embedEnv ["hello"] "gemini" = .error "boom" ∧
    anyKeyword ingestQuotaKeywords "boom" = false ∧
    (process_document_upload envC1 "f.pdf" "w1" "gemini").success = true ∧
    (process_document_upload envC1 "f.pdf" "w1" "gemini").error = none ∧
    (process_document_upload envC1 "f.pdf" "w1" "gemini").storage_mode
      = some "text_only" ∧
    (process_document_upload envC1 "f.pdf" "w1" "gemini").stored ≠ [] := by
  refine ⟨rfl, rfl, rfl, rfl, rfl, ?_⟩
  decide

/--
C1 amended: for every ingestion run in which the embedding stage fails
with an error not classified as quota/rate-limit, the pipeline does NOT
abort: as long as the store call succeeds, `process_document_upload`
returns `success = true` with `error = none`, the warning
`"Embeddings failed: <error>"`, and proceeds to store every record in
text-only mode (`has_embeddings = false`, `processing_mode =
"text_only"`, `storage_mode = "text_only"`, `embeddings_generated = 0`).
-/
theorem C1_amended_non_quota_failure_degrades (env : IngestEnv)
    (fileName workspaceId provider text e : String) (r : IngestResult)
    (hex : env.extractOutcome = .ok text)
    (htext : (stripStr text == "") = false)
    (hchunks : (chunk_text_simple env.splitOutcome text).isEmpty = false)
    (havail : (check_provider_availability env.embedEnv.cfg provider).available
      = true)
    (hemb : get_embeddings env.embedEnv
      ((chunk_text_simple env.splitOutcome text).take env.maxChunks) provider
      = .error e)
    (hnq : anyKeyword ingestQuotaKeywords e = false)
    (hstore : env.storeOutcome = .ok true)
    (hr : r = process_document_upload env fileName workspaceId provider) :
    r.success = true ∧ r.error = none ∧
      r.warning = some ("Embeddings failed: " ++ e) ∧
      r.storage_mode = some "text_only" ∧
      r.embeddings_generated = some 0 ∧
      r.stored.length =
        ((chunk_text_simple env.splitOutcome text).take env.maxChunks).length ∧
      ∀ m ∈ r.stored, m.has_embeddings = false ∧
        m.processing_mode = "text_only" := by
  subst hr
  rw [process_document_upload_eq env fileName workspaceId provider text hex
    htext hchunks]
  rw [embedStage_error env.embedEnv provider _ e havail hemb]
  unfold handleEmbedError
  rw [if_neg (by simp [hnq])]
  rw [storeStage_ok_none env workspaceId fileName provider _ true
    (some ("Embeddings failed: " ++ e)) hstore]
  refine ⟨rfl, rfl, rfl, rfl, rfl, mkMetadatas_length _ _ _ _ _, ?_⟩
  exact mkMetadatas_failed workspaceId fileName provider _

/-- Witness for the amended C1 at the concrete `envC1` run. -/
theorem C1_amended_witness :
    (process_document_upload envC1 "f.pdf" "w1" "gemini").success = true ∧
      (process_document_upload envC1 "f.pdf" "w1" "gemini").warning =
        some ("Embeddings failed: " ++ "boom") := by
  have h := C1_amended_non_quota_failure_degrades envC1 "f.pdf" "w1" "gemini"
    "hello" "boom" (process_document_upload envC1 "f.pdf" "w1" "gemini")
    rfl rfl rfl rfl rfl rfl rfl rfl
  exact ⟨h.1, h.2.2.1⟩

/--
C2: for every ingestion run in which the embedding provider is reported
unavailable by the availability check, or the embedding call fails with a
quota/rate-limit-classified error, the pipeline does not abort (given the
store call succeeds): `process_document_upload` returns `success = true`
with a non-null warning, `storage_mode = "text_only"`,
`embeddings_generated = 0`, and every stored record's metadata has
`has_embeddings = false` and `processing_mode = "text_only"`.
-/
theorem C2_quota_degrades_to_text_only (env : IngestEnv)
    (fileName workspaceId provider text : String) (r : IngestResult)
    (hex : env.extractOutcome = .ok text)
    (htext : (stripStr text == "") = false)
    (hchunks : (chunk_text_simple env.splitOutcome text).isEmpty = false)
    (hstore : env.storeOutcome = .ok true)
    (hcase :
      (check_provider_availability env.embedEnv.cfg provider).available = false
      ∨ ((check_provider_availability env.embedEnv.cfg provider).available
            = true ∧
          ∃ e, get_embeddings env.embedEnv
              ((chunk_text_simple env.splitOutcome text).take env.maxChunks)
              provider = .error e ∧
            anyKeyword ingestQuotaKeywords e = true))
    (hr : r = process_document_upload env fileName workspaceId provider) :
    r.success = true ∧ r.error = none ∧ r.warning.isSome = true ∧
      r.storage_mode = some "text_only" ∧
      r.embeddings_generated = some 0 ∧
      r.chunks_processed = some
        ((chunk_text_simple env.splitOutcome text).take env.maxChunks).length ∧
      r.stored.length =
        ((chunk_text_simple env.splitOutcome text).take env.maxChunks).length ∧
      ∀ m ∈ r.stored, m.has_embeddings = false ∧
        m.processing_mode = "text_only" := by
  subst hr
  rw [process_document_upload_eq env fileName workspaceId provider text hex
    htext hchunks]
  cases hcase with
  | inl havail =>
    rw [embedStage_unavailable env.embedEnv provider _ havail]
    rw [storeStage_ok_none env workspaceId fileName provider _ true _ hstore]
    refine ⟨rfl, rfl, rfl, rfl, rfl, rfl, mkMetadatas_length _ _ _ _ _, ?_⟩
    exact mkMetadatas_failed workspaceId fileName provider _
  | inr hq =>
    obtain ⟨havail, e, hemb, hke⟩ := hq
    rw [embedStage_error env.embedEnv provider _ e havail hemb]
    unfold handleEmbedError
    rw [if_pos hke]
    rw [storeStage_ok_none env workspaceId fileName provider _ true _ hstore]
    refine ⟨rfl, rfl, rfl, rfl, rfl, rfl, mkMetadatas_length _ _ _ _ _, ?_⟩
    exact mkMetadatas_failed workspaceId fileName provider _

/-- Concrete run for the C2 witness: no Gemini key configured, so the
availability check reports the provider unavailable. -/
def envC2 : IngestEnv :=
  ⟨⟨⟨"", "", 1⟩, fun _ => .error "unused", fun _ _ => .error "unused"⟩,
    .ok "hi", .ok ["hi"], .ok true, 15⟩

/-- Witness for C2 at the concrete `envC2` run. -/
theorem C2_quota_degrades_to_text_only_witness :
    (process_document_upload envC2 "f.pdf" "w1" "gemini").success = true ∧
      (process_document_upload envC2 "f.pdf" "w1" "gemini").storage_mode =
        some "text_only" ∧
      (process_document_upload envC2 "f.pdf" "w1" "gemini").warning.isSome
        = true := by
  have h := C2_quota_degrades_to_text_only envC2 "f.pdf" "w1" "gemini" "hi"
    (process_document_upload envC2 "f.pdf" "w1" "gemini")
    rfl rfl rfl rfl (Or.inl rfl) rfl
  exact ⟨h.1, h.2.2.2.1, h.2.2.1⟩

/-! ## Vector store adapter and retrieval coordinator
(chroma_client.py, tasks.py: query_workspace_knowledge) -/

/-- Result of `get_collection_info` (chroma_client.py:187-209). -/
structure CollectionInfo where
  count : Nat
  error : Option String
deriving DecidableEq

/-- `get_collection_info` over the `collection.count()` oracle: the
exception handler swallows any read error and reports `count = 0` with an
`error` field (chroma_client.py:207-209). -/
def get_collection_info (infoOutcome : Except String Nat) : CollectionInfo :=
  match infoOutcome with
  | .ok n => ⟨n, none⟩
  | .error e => ⟨0, some e⟩

/-- Opaque per-record metadata as returned by the store. -/
abbrev MetaMap := List (String × String)

/-- The fields of one Chroma query response that
`query_workspace_knowledge` reads (first result set of documents,
metadatas, distances). -/
structure StoreQueryResult where
  documents : List String
  metadatas : List MetaMap
  distances : List ℚ
deriving DecidableEq

/-- One context chunk of the retrieval result (tasks.py:236-241 and
271-277); `search_method` is the per-chunk tag present only on the
fallback path. -/
structure ContextChunk where
  text : String
  metadata : MetaMap
  similarity_score : ℚ
  rank : Nat
  search_method : Option String
deriving DecidableEq

/-- The chunk-formatting loop: `i` enumerates from the given start index,
similarity is `1 - distance` (no clamping in the source), rank is
`i + 1`. -/
def formatChunksAux (sm : Option String) :
    Nat → List (String × MetaMap × ℚ) → List ContextChunk
  | _, [] => []
  | i, (d, m, dist) :: rest =>
    ⟨d, m, 1 - dist, i + 1, sm⟩ :: formatChunksAux sm (i + 1) rest

/-- Formatting of a store response (tasks.py:228-241, 263-277): Python
`zip` truncates to the shortest of documents/metadatas/distances. -/
def formatChunks (sm : Option String) (r : StoreQueryResult) :
    List ContextChunk :=
  formatChunksAux sm 0 (r.documents.zip (r.metadatas.zip r.distances))

/-- Environment of one retrieval run: the embedding environment plus the
collection-count oracle and the two store query oracles (each taking the
requested result count). -/
structure QueryEnv where
  embedEnv : EmbedEnv
  infoOutcome : Except String Nat
  vectorQueryOutcome : Vec → Nat → Except String StoreQueryResult
  textQueryOutcome : String → Nat → Except String StoreQueryResult

/-- The dictionary returned by `query_workspace_knowledge`, restricted to
the fields the spec talks about; a field absent from the Python dict on a
given path is `none`. -/
structure QueryResult where
  success : Bool
  context_chunks : List ContextChunk
  total_results : Option Nat
  search_method : Option String
  document_count : Option Nat
  warning : Option String
  error : Option String
deriving DecidableEq

/-- Warning of the empty-workspace outcome (tasks.py:205). -/
def noDocsWarning : String :=
  "This workspace has no documents uploaded. The AI will respond based on general knowledge only."

/-- Warning of the lexical-fallback outcome (tasks.py:281). -/
def textFallbackWarning : String :=
  "Using text-based search due to embedding quota limits. Results may be less accurate."

/-- The except-handler of the inner retrieval try (tasks.py:247-291):
quota-classified failures fall back to text search (which may itself fail
into a successful-but-empty outcome); any other failure is re-raised. -/
def queryEmbedErrorHandler (env : QueryEnv) (query : String) (topK : Nat)
    (e : String) :
    Except String (List ContextChunk × String × Option String) :=
  if anyKeyword queryQuotaKeywords e then
    match env.textQueryOutcome query topK with
    | .ok r =>
      .ok (formatChunks (some "text_fallback") r, "text_fallback",
        some textFallbackWarning)
    | .error fe =>
      .ok ([], "failed", some ("Knowledge base search failed: " ++ fe))
  else .error e

/-- The inner try block of `query_workspace_knowledge` (tasks.py:211-291):
embed the query, reject an empty embedding, run the vector query, format;
any exception goes to the handler. -/
def queryInner (env : QueryEnv) (query : String) (topK : Nat)
    (provider : String) :
    Except String (List ContextChunk × String × Option String) :=
  match get_query_embedding env.embedEnv query provider with
  | .error e => queryEmbedErrorHandler env query topK e
  | .ok qe =>
    if qe.isEmpty then
      queryEmbedErrorHandler env query topK "Failed to generate query embedding"
    else
      match env.vectorQueryOutcome qe topK with
      | .error e => queryEmbedErrorHandler env query topK e
      | .ok r => .ok (formatChunks none r, "embedding", none)

/-- `query_workspace_knowledge` (tasks.py:169-316). -/
def query_workspace_knowledge (env : QueryEnv)
    (workspaceId query : String) (topK : Nat) (provider : String) :
    QueryResult :=
  let info := get_collection_info env.infoOutcome
  if info.count = 0 then
    ⟨true, [], some 0, some "no_documents", none, some noDocsWarning, none⟩
  else
    match queryInner env query topK provider with
    | .ok (chunks, method, warn) =>
      ⟨true, chunks, some chunks.length, some method, some info.count,
        warn, none⟩
    | .error e =>
      ⟨false, [], none, none, some 0, none, some e⟩

/-- When query-embedding generation raises, the inner try reduces to the
error handler. -/
theorem queryInner_embed_error (env : QueryEnv) (query : String)
    (topK : Nat) (provider : String) (e : String)
    (hge : get_query_embedding env.embedEnv query provider = .error e) :
    queryInner env query topK provider = queryEmbedErrorHandler env query topK e := by
  unfold queryInner
  rw [hge]

/--
C5: on a non-empty collection, a quota/rate-limit-classified
query-embedding failure degrades: with a working lexical fallback the call
returns `success = true`, `search_method = "text_fallback"` and a non-null
warning; with a failing lexical fallback it returns `success = true`,
empty `context_chunks`, `search_method = "failed"` and a non-null warning
— neither case raises.  A non-quota embedding failure instead yields the
fatal outcome `success = false` with `error` set.
-/
theorem C5_retrieval_degradation (env : QueryEnv)
    (workspaceId query : String) (topK : Nat) (provider : String)
    (e : String)
    (hcount : (get_collection_info env.infoOutcome).count ≠ 0)
    (hge : get_query_embedding env.embedEnv query provider = .error e) :
    (anyKeyword queryQuotaKeywords e = true →
      (∀ r, env.textQueryOutcome query topK = .ok r →
        query_workspace_knowledge env workspaceId query topK provider =
          ⟨true, formatChunks (some "text_fallback") r,
            some (formatChunks (some "text_fallback") r).length,
            some "text_fallback",
            some (get_collection_info env.infoOutcome).count,
            some textFallbackWarning, none⟩) ∧
      (∀ fe, env.textQueryOutcome query topK = .error fe →
        query_workspace_knowledge env workspaceId query topK provider =
          ⟨true, [], some 0, some "failed",
            some (get_collection_info env.infoOutcome).count,
            some ("Knowledge base search failed: " ++ fe), none⟩)) ∧
    (anyKeyword queryQuotaKeywords e = false →
      query_workspace_knowledge env workspaceId query topK provider =
        ⟨false, [], none, none, some 0, none, some e⟩) := by
  have hinner := queryInner_embed_error env query topK provider e hge
  constructor
  · intro hq
    constructor
    · intro r htq
      unfold query_workspace_knowledge
      rw [if_neg hcount, hinner]
      unfold queryEmbedErrorHandler
      rw [if_pos hq, htq]
    · intro fe htq
      unfold query_workspace_knowledge
      rw [if_neg hcount, hinner]
      unfold queryEmbedErrorHandler
      rw [if_pos hq, htq]
      rfl
  · intro hq
    unfold query_workspace_knowledge
    rw [if_neg hcount, hinner]
    unfold queryEmbedErrorHandler
    rw [if_neg (by simp [hq])]

/-- Concrete environment for the C5 witness: one stored document, the
query embedding fails with a 429 error, the lexical fallback returns one
result. -/
def envC5 : QueryEnv :=
  ⟨⟨⟨"", "gk", 1⟩, fun _ => .error "unused", fun _ _ => .error "HTTP 429"⟩,
    .ok 1, fun _ _ => .error "unused",
    fun _ _ => .ok ⟨["doc"], [[]], [(0 : ℚ)]⟩⟩

/-- Witness for C5 at the concrete `envC5` run: the text fallback path is
taken with a non-null warning. -/
theorem C5_retrieval_degradation_witness :
    query_workspace_knowledge envC5 "w" "q" 5 "gemini" =
      ⟨true, formatChunks (some "text_fallback") ⟨["doc"], [[]], [(0 : ℚ)]⟩,
        some 1, some "text_fallback", some 1,
        some textFallbackWarning, none⟩ := by
  have h := ((C5_retrieval_degradation envC5 "w" "q" 5 "gemini"
    (geminiExhaustMsg (geminiBatchMsg 0 1)) (by decide) rfl).1 (by decide)).1
    ⟨["doc"], [[]], [(0 : ℚ)]⟩ rfl
  exact h

/--
C6: retrieval on a collection whose reported document count is 0 returns
immediately with `success = true`, `search_method = "no_documents"`, empty
`context_chunks` (`total_results = 0`) and the general-knowledge warning;
the result is a fixed dictionary independent of the embedding and search
oracles, so no embedding or search call can influence it.
-/
theorem C6_empty_collection (env : QueryEnv) (workspaceId query : String)
    (topK : Nat) (provider : String)
    (hcount : (get_collection_info env.infoOutcome).count = 0) :
    query_workspace_knowledge env workspaceId query topK provider =
      ⟨true, [], some 0, some "no_documents", none, some noDocsWarning,
        none⟩ := by
  unfold query_workspace_knowledge
  rw [if_pos hcount]

/-- Concrete environment for the C6 witness: an empty collection. -/
def envC6 : QueryEnv :=
  ⟨⟨⟨"", "gk", 1⟩, fun _ => .error "unused", fun _ _ => .ok [(1 : ℚ)]⟩,
    .ok 0, fun _ _ => .error "unused", fun _ _ => .error "unused"⟩

/-- Witness for C6 at the concrete `envC6` run. -/
theorem C6_empty_collection_witness :
    query_workspace_knowledge envC6 "w" "q" 5 "gemini" =
      ⟨true, [], some 0, some "no_documents", none, some noDocsWarning,
        none⟩ :=
  C6_empty_collection envC6 "w" "q" 5 "gemini" rfl

/-- Concrete run refuting C9: the collection-info read raises, yet
retrieval reports a successful empty-workspace outcome. -/
def envC9 : QueryEnv :=
  ⟨⟨⟨"", "gk", 1⟩, fun _ => .error "unused", fun _ _ => .ok [(1 : ℚ)]⟩,
    .error "connection refused", fun _ _ => .error "unused",
    fun _ _ => .error "unused"⟩

/--
Counterexample to C9 as stated: with the store's count read failing
("connection refused"), `get_collection_info` swallows the exception and
reports `count = 0`, and `query_workspace_knowledge` returns
`success = true` with `search_method = "no_documents"` — the read failure
is not fatal and is indistinguishable from an empty workspace.
-/
theorem C9_counterexample :
    get_collection_info envC9.infoOutcome =
        ⟨0, some "connection refused"⟩ ∧
      (query_workspace_knowledge envC9 "w" "q" 5 "gemini").success = true ∧
      (query_workspace_knowledge envC9 "w" "q" 5 "gemini").search_method =
        some "no_documents" ∧
      (query_workspace_knowledge envC9 "w" "q" 5 "gemini").error = none :=
  ⟨rfl, rfl, rfl, rfl⟩

/--
C9 amended: for every retrieval call during which the vector store's
collection-info read fails, `get_collection_info` catches the exception
and returns `count = 0` with an `error` field, and
`query_workspace_knowledge` therefore reports the successful
`"no_documents"` outcome — a failed read is reported exactly like an
empty workspace, not as a failure.
-/
theorem C9_amended_info_error_not_fatal (env : QueryEnv)
    (workspaceId query : String) (topK : Nat) (provider : String)
    (e : String) (hinfo : env.infoOutcome = .error e) :
    get_collection_info env.infoOutcome = ⟨0, some e⟩ ∧
      query_workspace_knowledge env workspaceId query topK provider =
        ⟨true, [], some 0, some "no_documents", none, some noDocsWarning,
          none⟩ := by
  constructor
  · rw [hinfo]
    rfl
  · unfold query_workspace_knowledge
    rw [if_pos (by rw [hinfo]; rfl)]

/-- Witness for the amended C9 at the concrete `envC9` run. -/
theorem C9_amended_witness :
    get_collection_info envC9.infoOutcome =
        ⟨0, some "connection refused"⟩ ∧
      query_workspace_knowledge envC9 "w" "x" 3 "gemini" =
        ⟨true, [], some 0, some "no_documents", none, some noDocsWarning,
          none⟩ :=
  C9_amended_info_error_not_fatal envC9 "w" "x" 3 "gemini"
    "connection refused" rfl

/-- The formatting loop is length-preserving. -/
theorem formatChunksAux_length (sm : Option String) :
    ∀ (l : List (String × MetaMap × ℚ)) (i : Nat),
      (formatChunksAux sm i l).length = l.length := by
  intro l
  induction l with
  | nil => intro i; rfl
  | cons p rest ih =>
    intro i
    obtain ⟨d, m, dist⟩ := p
    simp [formatChunksAux, ih]

/-- Element-wise description of the formatting loop: the `j`-th produced
chunk carries the `j`-th zipped triple, similarity `1 - distance`, and
rank `i + j + 1`. -/
theorem formatChunksAux_get (sm : Option String) :
    ∀ (l : List (String × MetaMap × ℚ)) (i j : Nat)
      (h : j < (formatChunksAux sm i l).length) (h2 : j < l.length),
      (formatChunksAux sm i l).get ⟨j, h⟩ =
        ⟨(l.get ⟨j, h2⟩).1, (l.get ⟨j, h2⟩).2.1,
          1 - (l.get ⟨j, h2⟩).2.2, i + j + 1, sm⟩ := by
  intro l
  induction l with
  | nil =>
    intro i j h h2
    simp at h2
  | cons p rest ih =>
    intro i j h h2
    obtain ⟨d, m, dist⟩ := p
    cases j with
    | zero => rfl
    | succ k =>
      have hk : k < (formatChunksAux sm (i + 1) rest).length := by
        have := formatChunksAux_length sm rest (i + 1)
        simp only [List.length_cons] at h2
        omega
      have hk2 : k < rest.length := by
        simp only [List.length_cons] at h2
        omega
      have hstep := ih (i + 1) k hk hk2
      simp only [formatChunksAux, List.get_cons_succ]
      rw [hstep]
      have harith : i + 1 + k + 1 = i + (k + 1) + 1 := by omega
      rw [harith]

/-- Any chunk produced by the formatting loop takes its similarity from
some zipped triple. -/
theorem formatChunksAux_mem (sm : Option String) :
    ∀ (l : List (String × MetaMap × ℚ)) (i : Nat) (c : ContextChunk),
      c ∈ formatChunksAux sm i l →
      ∃ p ∈ l, c.similarity_score = 1 - p.2.2 := by
  intro l
  induction l with
  | nil =>
    intro i c hc
    simp [formatChunksAux] at hc
  | cons p rest ih =>
    intro i c hc
    obtain ⟨d, m, dist⟩ := p
    simp only [formatChunksAux, List.mem_cons] at hc
    cases hc with
    | inl h =>
      exact ⟨(d, m, dist), List.mem_cons_self _ _, by rw [h]⟩
    | inr h =>
      obtain ⟨q, hq, hs⟩ := ih (i + 1) c h
      exact ⟨q, List.mem_cons_of_mem _ hq, hs⟩

/-- The third component of a triple in the zip of three lists belongs to
the third list. -/
theorem zip3_snd_snd_mem :
    ∀ (l1 : List String) (l2 : List MetaMap) (l3 : List ℚ)
      (p : String × MetaMap × ℚ), p ∈ l1.zip (l2.zip l3) → p.2.2 ∈ l3 := by
  intro l1
  induction l1 with
  | nil => intro l2 l3 p hp; simp at hp
  | cons a as ih =>
    intro l2 l3 p hp
    cases l2 with
    | nil => simp [List.zip] at hp
    | cons b bs =>
      cases l3 with
      | nil => simp [List.zip] at hp
      | cons c cs =>
        simp only [List.zip_cons_cons, List.mem_cons] at hp
        cases hp with
        | inl h => rw [h]; exact List.mem_cons_self _ _
        | inr h => exact List.mem_cons_of_mem _ (ih bs cs p h)

/-- Concrete run refuting the `[0,1]` bound of C10: the store reports a
cosine distance of `3/2` (legal for cosine distance, whose range is
`[0,2]`), and the unclamped `1 - distance` gives a negative similarity. -/
def envC10 : QueryEnv :=
  ⟨⟨⟨"", "gk", 1⟩, fun _ => .error "unused", fun _ _ => .ok [(1 : ℚ)]⟩,
    .ok 1, fun _ _ => .ok ⟨["doc"], [[]], [(3 / 2 : ℚ)]⟩,
    fun _ _ => .error "unused"⟩

/--
Counterexample to C10 as stated: a retrieval run whose store-reported
distance is `3/2` produces a context chunk with
`similarity_score = 1 - 3/2 < 0`, outside `[0,1]` — the code computes
`1 - distance` with no clamping.
-/
theorem C10_counterexample :
    (query_workspace_knowledge envC10 "w" "q" 5 "gemini").context_chunks =
        [⟨"doc", [], 1 - (3 / 2 : ℚ), 1, none⟩] ∧
      ¬(0 ≤ (1 - (3 / 2 : ℚ))) := by
  constructor
  · rfl
  · norm_num

/--
C10 amended: every `ContextChunk` produced by `query_workspace_knowledge`
(vector search or text fallback, both formatted by `formatChunks`) has
`similarity_score` equal to `1` minus the store-reported distance, and
1-based contiguous ranks (`rank = j + 1` at 0-based position `j`); the
score lies in `[0,1]` when the store-reported distances lie in `[0,1]`,
but the code does not clamp, so distances above `1` produce negative
scores.
-/
theorem C10_amended_similarity_and_rank :
    (∀ (sm : Option String) (r : StoreQueryResult) (j : Nat)
      (h : j < (formatChunks sm r).length)
      (h2 : j < (r.documents.zip (r.metadatas.zip r.distances)).length),
      ((formatChunks sm r).get ⟨j, h⟩).rank = j + 1 ∧
        ((formatChunks sm r).get ⟨j, h⟩).similarity_score =
          1 - ((r.documents.zip (r.metadatas.zip r.distances)).get
            ⟨j, h2⟩).2.2) ∧
    (∀ (sm : Option String) (r : StoreQueryResult),
      (∀ d ∈ r.distances, 0 ≤ d ∧ d ≤ 1) →
      ∀ c ∈ formatChunks sm r,
        0 ≤ c.similarity_score ∧ c.similarity_score ≤ 1) ∧
    (∀ (env : QueryEnv) (workspaceId query : String) (topK : Nat)
      (provider : String) (qe : Vec) (r : StoreQueryResult),
      (get_collection_info env.infoOutcome).count ≠ 0 →
      get_query_embedding env.embedEnv query provider = .ok qe →
      qe.isEmpty = false →
      env.vectorQueryOutcome qe topK = .ok r →
      (query_workspace_knowledge env workspaceId query topK
          provider).context_chunks = formatChunks none r) := by
  refine ⟨?_, ?_, ?_⟩
  · intro sm r j h h2
    have hg := formatChunksAux_get sm
      (r.documents.zip (r.metadatas.zip r.distances)) 0 j h h2
    unfold formatChunks
    rw [hg]
    constructor
    · show 0 + j + 1 = j + 1
      omega
    · rfl
  · intro sm r hd c hc
    obtain ⟨p, hp, hs⟩ := formatChunksAux_mem sm _ 0 c hc
    have hdist := zip3_snd_snd_mem r.documents r.metadatas r.distances p hp
    obtain ⟨h0, h1⟩ := hd p.2.2 hdist
    constructor
    · rw [hs]; linarith
    · rw [hs]; linarith
  · intro env workspaceId query topK provider qe r hcount hge hne hvq
    unfold query_workspace_knowledge
    rw [if_neg hcount]
    have hinner : queryInner env query topK provider =
        .ok (formatChunks none r, "embedding", none) := by
      unfold queryInner
      rw [hge]
      simp only [hne, Bool.false_eq_true, if_false]
      rw [hvq]
    rw [hinner]

/-- Witness for the amended C10: at the concrete `envC10` run the single
produced chunk has rank 1 and similarity `1 - 3/2`. -/
theorem C10_amended_witness :
    ((formatChunks none ⟨["doc"], [[]], [(3 / 2 : ℚ)]⟩).get
        ⟨0, by decide⟩).rank = 0 + 1 ∧
      ((formatChunks none ⟨["doc"], [[]], [(3 / 2 : ℚ)]⟩).get
        ⟨0, by decide⟩).similarity_score =
        1 - ((["doc"].zip (([[]] : List MetaMap).zip [(3 / 2 : ℚ)])).get
          ⟨0, by decide⟩).2.2 :=
  C10_amended_similarity_and_rank.1 none ⟨["doc"], [[]], [(3 / 2 : ℚ)]⟩ 0
    (by decide) (by decide)
